import Mathlib

/-!
Verification development for the emotion-detection pipeline
(camera rate limiter, face/emotion classifier wrapper, shared emotion
state store, detection loop control, prompt formatting).

The Python source is shallowly embedded:
* timestamps and confidence scores are exact rationals (`ℚ`);
* Python dicts that are only iterated / looked up are insertion-ordered
  association lists `List (String × _)`, mirroring dict iteration order;
* external capabilities (the camera device, the face cascade, DeepFace)
  are oracle parameters: each call site receives the value the external
  call would produce, with `Except String` modelling a raised exception;
* `convert_numpy_types` only converts numpy scalars to native Python
  numbers; on the rational model it is the identity and is embedded as
  such.
-/

/-! ## camera_input.py — rate-limited frame source -/

/-- A frame's content, abstracted to an identifier.  Two frames are the
same frame exactly when the identifiers coincide. -/
abbrev Frame := ℕ

/-- Mutable state of `CameraInput` relevant to rate limiting:
`last_frame`, `last_frame_valid`, `last_frame_time`
(initialised to `None`, `False`, `0` in `__init__`). -/
structure CameraState where
  last_frame : Option Frame
  last_frame_valid : Bool
  last_frame_time : ℚ
  deriving DecidableEq, Repr

/-- The initial camera state set up by `CameraInput.__init__`. -/
def CameraState.init : CameraState :=
  { last_frame := none, last_frame_valid := false, last_frame_time := 0 }

/-- Result of one `_read_with_frame_rate_limiting` call: the returned
`(ret, frame)` pair, the updated object state, and an instrumentation
flag `touched` that is true exactly when `self.video_capture.read()`
was invoked on this call. -/
structure ReadOutcome where
  ret : Bool
  frame : Option Frame
  state : CameraState
  touched : Bool
  deriving DecidableEq, Repr

/-- `CameraInput._read_with_frame_rate_limiting`, embedded.
`interval` is `self.frame_interval = 1 / target_fps`, `now` is the
`time.time()` sampled at the top of the call, and `dev` is the frame the
device would deliver if `self.video_capture.read()` were invoked on this
call (`none` for a failed device read). -/
def read_with_frame_rate_limiting (interval : ℚ) (st : CameraState)
    (now : ℚ) (dev : Option Frame) : ReadOutcome :=
  if interval ≤ now - st.last_frame_time then
    -- enough time has passed: attempt a real device read
    match dev with
    | some f =>
        { ret := true, frame := some f,
          state := { last_frame := some f, last_frame_valid := true,
                     last_frame_time := now },
          touched := true }
    | none =>
        if st.last_frame_valid then
          { ret := true, frame := st.last_frame, state := st, touched := true }
        else
          { ret := false, frame := none, state := st, touched := true }
  else
    if st.last_frame_valid then
      -- not enough time has passed: serve the cached frame
      { ret := true, frame := st.last_frame, state := st, touched := false }
    else
      -- no cached frame yet: fall through to a real device read
      match dev with
      | some f =>
          { ret := true, frame := some f,
            state := { last_frame := some f, last_frame_valid := true,
                       last_frame_time := now },
            touched := true }
      | none =>
          { ret := false, frame := none, state := st, touched := true }

/-- The first read of the C2 scenario: interval 10, fresh camera state,
call at time 0 (below the interval since `last_frame_time` starts at 0),
device would deliver frame 5. -/
def c2_initial_read : ReadOutcome :=
  read_with_frame_rate_limiting 10 CameraState.init 0 (some 5)

/-- Second call, at time 9: below the interval, served from cache. -/
def c2_first_read : ReadOutcome :=
  read_with_frame_rate_limiting 10 c2_initial_read.state 9 (some 6)

/-- Third call, at time 11: only 2 after the previous call, yet 11 after
the last accepted device read, so the device is read again. -/
def c2_second_read : ReadOutcome :=
  read_with_frame_rate_limiting 10 c2_first_read.state 11 (some 7)

/-! ## emotion_detection/emotion_detector.py — classifier wrapper -/

/-- `emotion_colors` table of `emotions_to_color` (emotion_transforms.py),
RGB triples, with the dict `.get` default `(0, 0, 0)`. -/
def emotion_color_table : List (String × (ℤ × ℤ × ℤ)) :=
  [("neutral", (0, 0, 0)), ("happy", (255, 255, 0)), ("sad", (0, 0, 255)),
   ("angry", (255, 0, 0)), ("surprise", (255, 165, 0)),
   ("fear", (128, 0, 128)), ("disgust", (0, 128, 0))]

/-- Dict lookup `emotion_colors.get(emotion.lower(), (0, 0, 0))`. -/
def lookupEmotionColor (s : String) : ℤ × ℤ × ℤ :=
  (emotion_color_table.lookup s.toLower).getD (0, 0, 0)

/-- `np.clip(·, 0, 255).astype(int)` on one component: clamp to
`[0, 255]` then truncate to an integer (the clamped value is
nonnegative, so truncation is the floor). -/
def clip255 (q : ℚ) : ℤ :=
  ⌊max 0 (min q 255)⌋

/-- `emotions_to_color` (emotion_transforms.py): weighted RGB sum of the
per-emotion colors, weights `confidence / 100`, clipped to `[0, 255]`. -/
def emotions_to_color (d : List (String × ℚ)) : ℤ × ℤ × ℤ :=
  let w : ℚ × ℚ × ℚ := d.foldl
    (fun acc p =>
      let wt := p.2 / 100
      let c := lookupEmotionColor p.1
      (acc.1 + (c.1 : ℚ) * wt, acc.2.1 + (c.2.1 : ℚ) * wt,
       acc.2.2 + (c.2.2 : ℚ) * wt))
    (0, 0, 0)
  (clip255 w.1, clip255 w.2.1, clip255 w.2.2)

/-- The dict returned by `EmotionDetector.detect_emotions_from_frame`.
Every return path of the Python function populates all of
`'emotions'`, `'dominant_emotion'`, `'emotion_color_rgb'`,
`'emotion_color_bgr'`, `'face_detected'`, `'face_bbox'`; the `'error'`
key is present only on the exception path (`none` models an absent
key). -/
structure DetectResult where
  emotions : List (String × ℚ)
  dominant_emotion : Option String
  emotion_color_rgb : ℤ × ℤ × ℤ
  emotion_color_bgr : ℤ × ℤ × ℤ
  face_detected : Bool
  face_bbox : Option (ℤ × ℤ × ℤ × ℤ)
  error : Option String
  deriving DecidableEq, Repr

/-- `EmotionDetector.detect_emotions_from_frame`, embedded.
Its externals are oracle parameters:
* `faces` — the outcome of the grayscale conversion plus
  `face_cascade.detectMultiScale`: the located `(x, y, w, h)` boxes, or
  `Except.error` when any of those raised;
* `analyze` — the outcome of `DeepFace.analyze` on the face crop: the
  emotion dict and the precomputed dominant emotion, or `Except.error`
  when it raised.
The `try/except` wrapping the whole body becomes the `.error` branches;
the Python docstring claims the function may return `None`, so the
result type is `Option DetectResult`, with `none` never produced. -/
def detect_emotions_from_frame
    (faces : Except String (List (ℤ × ℤ × ℤ × ℤ)))
    (analyze : Except String (List (String × ℚ) × String)) :
    Option DetectResult :=
  match faces with
  | .error e =>
      some { emotions := [], dominant_emotion := none,
             emotion_color_rgb := (0, 0, 0), emotion_color_bgr := (0, 0, 0),
             face_detected := false, face_bbox := none, error := some e }
  | .ok fs =>
      match fs with
      | [] =>
          some { emotions := [], dominant_emotion := none,
                 emotion_color_rgb := (0, 0, 0),
                 emotion_color_bgr := (0, 0, 0),
                 face_detected := false, face_bbox := none, error := none }
      | f :: _ =>
          match analyze with
          | .error e =>
              some { emotions := [], dominant_emotion := none,
                     emotion_color_rgb := (0, 0, 0),
                     emotion_color_bgr := (0, 0, 0),
                     face_detected := false, face_bbox := none,
                     error := some e }
          | .ok (emotions, dominant) =>
              let rgb := emotions_to_color emotions
              some { emotions := emotions, dominant_emotion := some dominant,
                     emotion_color_rgb := rgb,
                     emotion_color_bgr := (rgb.2.2, rgb.2.1, rgb.1),
                     face_detected := true, face_bbox := some f,
                     error := none }

/-- A concrete detected result used by witnesses. -/
def happyDetected : DetectResult :=
  { emotions := [("happy", 90)], dominant_emotion := some "happy",
    emotion_color_rgb := (0, 0, 0), emotion_color_bgr := (0, 0, 0),
    face_detected := true, face_bbox := some (0, 0, 50, 50), error := none }

/-! ## app.py — shared emotion state, history, loop control -/

/-- Python `round` with one decimal digit on an exact rational:
round half to even on `q * 10`, divided by 10.  (The source applies
`round(·, 1)` to `float(score) / 10`; the model works over exact
rationals.) -/
def pyRound1 (q : ℚ) : ℚ :=
  ((if q * 10 - (⌊q * 10⌋ : ℚ) < 1 / 2 then ⌊q * 10⌋
    else if 1 / 2 < q * 10 - (⌊q * 10⌋ : ℚ) then ⌊q * 10⌋ + 1
    else if ⌊q * 10⌋ % 2 = 0 then ⌊q * 10⌋ else ⌊q * 10⌋ + 1 : ℤ) : ℚ) / 10

/-- `convert_to_out_of_10` (app.py): per emotion,
`round(float(score) / 10, 1)`.  `convert_numpy_types` is the identity on
the rational model. -/
def convert_to_out_of_10 (d : List (String × ℚ)) : List (String × ℚ) :=
  d.map (fun p => (p.1, pyRound1 (p.2 / 10)))

/-- The `emotion_data` global of app.py: `'emotions'`,
`'scores_out_of_10'`, `'timestamp'` (initially `{}`, `{}`, `None`). -/
structure EmotionData where
  emotions : List (String × ℚ)
  scores_out_of_10 : List (String × ℚ)
  timestamp : Option ℚ
  deriving DecidableEq, Repr

/-- One element of the `emotion_history` deque:
`{'emotions': …, 'timestamp': time.time()}`. -/
structure HistoryEntry where
  emotions : List (String × ℚ)
  timestamp : ℚ
  deriving DecidableEq, Repr

/-- The two shared globals written by the detection loop. -/
structure AppState where
  emotion_data : EmotionData
  emotion_history : List HistoryEntry
  deriving DecidableEq, Repr

/-- Initial shared state of app.py: empty dicts, `None` timestamp,
empty `deque(maxlen=10)`. -/
def AppState.init : AppState :=
  { emotion_data := { emotions := [], scores_out_of_10 := [], timestamp := none },
    emotion_history := [] }

/-- Capacity of the `emotion_history` deque (`deque(maxlen=10)`). -/
def HISTORY_MAXLEN : ℕ := 10

/-- `deque(maxlen=10).append`: append on the right, evicting from the
left when the capacity would be exceeded. -/
def dequeAppend (l : List HistoryEntry) (x : HistoryEntry) : List HistoryEntry :=
  if HISTORY_MAXLEN < (l ++ [x]).length then
    (l ++ [x]).drop ((l ++ [x]).length - HISTORY_MAXLEN)
  else
    l ++ [x]

/-- The suffix of at most `HISTORY_MAXLEN` most recent entries. -/
def lastTen (l : List HistoryEntry) : List HistoryEntry :=
  l.drop (l.length - HISTORY_MAXLEN)

/-- The publish step of one `continuous_emotion_detection` iteration
(app.py lines 100–117): `if result and result['face_detected']`, append
`{'emotions': …, 'timestamp': time.time()}` to the history deque, then
set the three `emotion_data` fields, with `emotion_data['timestamp']`
drawn from a second `time.time()` call (`tData`).  Otherwise the shared
state is untouched. -/
def process_result (st : AppState) (result : Option DetectResult)
    (tHist tData : ℚ) : AppState :=
  match result with
  | none => st
  | some r =>
      if r.face_detected then
        { emotion_history :=
            dequeAppend st.emotion_history
              { emotions := r.emotions, timestamp := tHist },
          emotion_data :=
            { emotions := r.emotions,
              scores_out_of_10 := convert_to_out_of_10 r.emotions,
              timestamp := some tData } }
      else st

/-- `get_latest_emotions` (app.py): copies `emotion_data` and converts
numpy scalar types; on the rational model the conversion is the
identity, so the snapshot is the current record. -/
def get_latest_emotions (st : AppState) : EmotionData :=
  st.emotion_data

/-- One loop iteration's inputs: the detection result handed to the
publish step and the two `time.time()` samples (history timestamp,
`emotion_data` timestamp) of that iteration. -/
def publishAll (st : AppState) (rs : List (DetectResult × ℚ × ℚ)) : AppState :=
  rs.foldl (fun s p => process_result s (some p.1) p.2.1 p.2.2) st

/-- The history entry one detected iteration appends. -/
def toHistoryEntry (p : DetectResult × ℚ × ℚ) : HistoryEntry :=
  { emotions := p.1.emotions, timestamp := p.2.1 }

/-- Loop control state: the `emotion_detection_running` flag, plus an
instrumentation counter of how many loop threads
`start_continuous_emotion_detection` has spawned. -/
structure LoopControl where
  running : Bool
  threads_spawned : ℕ
  deriving DecidableEq, Repr

/-- `start_continuous_emotion_detection` (app.py lines 123–132): if the
flag is clear, set it, spawn the loop thread, and return `True`;
otherwise return `False` and change nothing. -/
def start_continuous_emotion_detection (c : LoopControl) : Bool × LoopControl :=
  if ¬ c.running then
    (true, { running := true, threads_spawned := c.threads_spawned + 1 })
  else
    (false, c)

/-- `stop_continuous_emotion_detection` (app.py): clear the flag. -/
def stop_continuous_emotion_detection (c : LoopControl) : LoopControl :=
  { c with running := false }

/-! ### Field-level granularity of the publish

The three `emotion_data[…] = …` statements of the loop body are three
separate dict-item assignments; each assignment is atomic (a single
interpreter-level dict store), but nothing makes the group of three
atomic, and `get_latest_emotions` may copy the dict between them.  The
publish is therefore also modelled at assignment granularity: a list of
three field writes applied in program order, with a snapshot possible
after any prefix. -/

/-- One atomic dict-item assignment to `emotion_data`. -/
inductive FieldWrite where
  | wEmotions (e : List (String × ℚ))
  | wScores (s : List (String × ℚ))
  | wTimestamp (t : Option ℚ)
  deriving DecidableEq, Repr

/-- Apply one atomic field write. -/
def applyWrite (d : EmotionData) : FieldWrite → EmotionData
  | .wEmotions e => { d with emotions := e }
  | .wScores s => { d with scores_out_of_10 := s }
  | .wTimestamp t => { d with timestamp := t }

/-- The three assignments of a successful publish, in program order
(app.py lines 114–117). -/
def publishWrites (e : List (String × ℚ)) (tData : ℚ) : List FieldWrite :=
  [.wEmotions e, .wScores (convert_to_out_of_10 e), .wTimestamp (some tData)]

/-- The `emotion_data` record a reader snapshots when its
`emotion_data.copy()` lands after the first `k` of the publish's
assignments. -/
def observeAfter (d : EmotionData) (e : List (String × ℚ)) (tData : ℚ)
    (k : ℕ) : EmotionData :=
  ((publishWrites e tData).take k).foldl applyWrite d

/-- The shared record after an earlier completed publish (emotions
`{sad: 100}` at time 1), used as the pre-state of the C1 interleaving. -/
def c1_before : EmotionData :=
  { emotions := [("sad", 100)], scores_out_of_10 := [("sad", 10)],
    timestamp := some 1 }

/-! ## prompt_formatting/format_prompt.py -/

/-- Python `max(emotions_dict.items(), key=lambda x: x[1])` on a
nonempty association list, seeded with the first item: the running best
is replaced only when a later item's value is strictly greater, so on a
tie the earlier item is kept. -/
def pyMaxBySnd (x : String × ℚ) (xs : List (String × ℚ)) : String × ℚ :=
  xs.foldl (fun best y => if best.2 < y.2 then y else best) x

/-- Python `str.capitalize()`: first character uppercased, the rest
lowercased. -/
def pyCapitalize (s : String) : String :=
  match s.toList with
  | [] => ""
  | c :: cs => String.mk (c.toUpper :: cs.map Char.toLower)

/-- `format_dominant_emotion` (format_prompt.py): empty dict gives the
empty string; otherwise the dominant emotion is selected by
`max(items, key=lambda x: x[1])` and capitalised. -/
def format_dominant_emotion (d : List (String × ℚ)) : String :=
  match d with
  | [] => ""
  | x :: xs => "I am feeling " ++ pyCapitalize (pyMaxBySnd x xs).1

/-- Fifteen concrete detected loop iterations. -/
def fifteenPublishes : List (DetectResult × ℚ × ℚ) :=
  (List.range 15).map (fun i => (happyDetected, (i : ℚ), (i : ℚ)))

/-! ## Concrete evaluations -/

example :
    detect_emotions_from_frame (.ok []) (.ok ([("happy", 90)], "happy")) =
      some { emotions := [], dominant_emotion := none,
             emotion_color_rgb := (0, 0, 0), emotion_color_bgr := (0, 0, 0),
             face_detected := false, face_bbox := none, error := none } := by
  decide

example : pyRound1 (7346 / 1000) = 73 / 10 := by norm_num [pyRound1, Int.fract]

example : convert_to_out_of_10 [("happy", 7346 / 100)] = [("happy", 73 / 10)] := by
  simp only [convert_to_out_of_10, List.map_cons, List.map_nil]
  norm_num [pyRound1, Int.fract]

/-! ## Supporting lemmas -/

/-- Sanity: the fine-grained write sequence, run to completion, produces
exactly the `emotion_data` that `process_result` installs on a detected
result. -/
theorem publishWrites_complete_eq_process_result (st : AppState)
    (r : DetectResult) (hr : r.face_detected = true) (tHist tData : ℚ) :
    (publishWrites r.emotions tData).foldl applyWrite st.emotion_data =
      (process_result st (some r) tHist tData).emotion_data := by
  simp [publishWrites, applyWrite, process_result, hr]

theorem pyMaxBySnd_nil (x : String × ℚ) : pyMaxBySnd x [] = x := rfl

theorem pyMaxBySnd_cons (x y : String × ℚ) (ys : List (String × ℚ)) :
    pyMaxBySnd x (y :: ys) = pyMaxBySnd (if x.2 < y.2 then y else x) ys := rfl

/-- The fold underlying `pyMaxBySnd` never decreases the running value. -/
theorem pyMaxBySnd_seed_le (xs : List (String × ℚ)) :
    ∀ x : String × ℚ, x.2 ≤ (pyMaxBySnd x xs).2 := by
  induction xs with
  | nil => intro x; simp [pyMaxBySnd_nil]
  | cons y ys ih =>
      intro x
      rw [pyMaxBySnd_cons]
      by_cases h : x.2 < y.2
      · simp only [h, if_pos]
        exact le_of_lt (lt_of_lt_of_le h (ih y))
      · simp only [h, if_neg, not_false_iff]
        exact ih x

/-- The fold result either is the seed or strictly exceeds it. -/
theorem pyMaxBySnd_eq_or_gt (xs : List (String × ℚ)) :
    ∀ x : String × ℚ, pyMaxBySnd x xs = x ∨ x.2 < (pyMaxBySnd x xs).2 := by
  induction xs with
  | nil => intro x; left; exact pyMaxBySnd_nil x
  | cons y ys ih =>
      intro x
      rw [pyMaxBySnd_cons]
      by_cases h : x.2 < y.2
      · right
        simp only [h, if_pos]
        exact lt_of_lt_of_le h (pyMaxBySnd_seed_le ys y)
      · simp only [h, if_neg, not_false_iff]
        exact ih x

/-- The fold result dominates every listed value. -/
theorem pyMaxBySnd_is_max (xs : List (String × ℚ)) :
    ∀ x : String × ℚ, ∀ p ∈ x :: xs, p.2 ≤ (pyMaxBySnd x xs).2 := by
  induction xs with
  | nil =>
      intro x p hp
      simp only [List.mem_singleton] at hp
      subst hp
      simp [pyMaxBySnd_nil]
  | cons y ys ih =>
      intro x p hp
      rw [pyMaxBySnd_cons]
      by_cases h : x.2 < y.2
      · simp only [h, if_pos]
        rcases List.mem_cons.mp hp with rfl | hp2
        · exact le_of_lt (lt_of_lt_of_le h (pyMaxBySnd_seed_le ys y))
        · exact ih y p (by simpa using hp2)
      · simp only [h, if_neg, not_false_iff]
        rcases List.mem_cons.mp hp with rfl | hp2
        · exact pyMaxBySnd_seed_le ys p
        · rcases List.mem_cons.mp hp2 with rfl | hp3
          · exact le_trans (le_of_not_lt h) (pyMaxBySnd_seed_le ys x)
          · exact ih x p (List.mem_cons_of_mem x hp3)

/-- The fold result is the first listed item whose value reaches the
maximum: `find?` with threshold the fold's own value returns it. -/
theorem pyMaxBySnd_find (xs : List (String × ℚ)) :
    ∀ x : String × ℚ,
      (x :: xs).find? (fun p => decide ((pyMaxBySnd x xs).2 ≤ p.2)) =
        some (pyMaxBySnd x xs) := by
  induction xs with
  | nil =>
      intro x
      simp [pyMaxBySnd_nil, List.find?]
  | cons y ys ih =>
      intro x
      rw [pyMaxBySnd_cons]
      by_cases h : x.2 < y.2
      · simp only [h, if_pos]
        have hgt : x.2 < (pyMaxBySnd y ys).2 :=
          lt_of_lt_of_le h (pyMaxBySnd_seed_le ys y)
        rw [List.find?_cons_of_neg _ (by simpa using not_le_of_lt hgt)]
        exact ih y
      · simp only [h, if_neg, not_false_iff]
        rcases pyMaxBySnd_eq_or_gt ys x with heq | hgt
        · rw [heq]
          exact List.find?_cons_of_pos _ (by simp)
        · rw [List.find?_cons_of_neg _ (by simpa using not_le_of_lt hgt)]
          have hy : ¬ (pyMaxBySnd x ys).2 ≤ y.2 :=
            not_le_of_lt (lt_of_le_of_lt (le_of_not_lt h) hgt)
          rw [List.find?_cons_of_neg _ (by simpa using hy)]
          have := ih x
          rwa [List.find?_cons_of_neg _ (by simpa using not_le_of_lt hgt)] at this

theorem dequeAppend_eq_lastTen (l : List HistoryEntry) (x : HistoryEntry) :
    dequeAppend l x = lastTen (l ++ [x]) := by
  unfold dequeAppend lastTen
  by_cases h : HISTORY_MAXLEN < (l ++ [x]).length
  · rw [if_pos h]
  · rw [if_neg h, Nat.sub_eq_zero_of_le (le_of_not_lt h), List.drop_zero]

theorem dequeAppend_length_le_ten (l : List HistoryEntry) (x : HistoryEntry) :
    (dequeAppend l x).length ≤ HISTORY_MAXLEN := by
  unfold dequeAppend
  by_cases h : HISTORY_MAXLEN < (l ++ [x]).length
  · rw [if_pos h, List.length_drop]
    omega
  · rw [if_neg h]
    exact le_of_not_lt h

theorem lastTen_of_le (l : List HistoryEntry) (h : l.length ≤ HISTORY_MAXLEN) :
    lastTen l = l := by
  unfold lastTen
  rw [Nat.sub_eq_zero_of_le h, List.drop_zero]

theorem lastTen_append_lastTen (a b : List HistoryEntry) :
    lastTen (lastTen a ++ b) = lastTen (a ++ b) := by
  by_cases ha : a.length ≤ HISTORY_MAXLEN
  · rw [lastTen_of_le a ha]
  · push_neg at ha
    unfold lastTen
    rw [List.drop_append_eq_append_drop, List.drop_append_eq_append_drop,
        List.drop_drop]
    congr 1
    · congr 1
      simp only [List.length_append, List.length_drop]
      omega
    · congr 1
      simp only [List.length_append, List.length_drop]
      omega

theorem foldl_dequeAppend_eq (xs : List HistoryEntry) :
    ∀ pre : List HistoryEntry, pre.length ≤ HISTORY_MAXLEN →
      xs.foldl dequeAppend pre = lastTen (pre ++ xs) := by
  induction xs with
  | nil =>
      intro pre h
      rw [List.foldl_nil, List.append_nil, lastTen_of_le pre h]
  | cons x xs ih =>
      intro pre h
      rw [List.foldl_cons, ih (dequeAppend pre x) (dequeAppend_length_le_ten pre x),
          dequeAppend_eq_lastTen, lastTen_append_lastTen, List.append_assoc,
          List.singleton_append]

theorem process_result_history_detected (st : AppState) (r : DetectResult)
    (hr : r.face_detected = true) (tHist tData : ℚ) :
    (process_result st (some r) tHist tData).emotion_history =
      dequeAppend st.emotion_history { emotions := r.emotions, timestamp := tHist } := by
  simp [process_result, hr]

theorem publishAll_history (rs : List (DetectResult × ℚ × ℚ)) :
    ∀ st : AppState, (∀ p ∈ rs, p.1.face_detected = true) →
      (publishAll st rs).emotion_history =
        (rs.map toHistoryEntry).foldl dequeAppend st.emotion_history := by
  induction rs with
  | nil => intro st _; rfl
  | cons p ps ih =>
      intro st hdet
      have hp : p.1.face_detected = true := hdet p (List.mem_cons_self p ps)
      have hps : ∀ q ∈ ps, q.1.face_detected = true :=
        fun q hq => hdet q (List.mem_cons_of_mem p hq)
      show (publishAll (process_result st (some p.1) p.2.1 p.2.2) ps).emotion_history = _
      rw [ih _ hps, List.map_cons, List.foldl_cons,
          process_result_history_detected st p.1 hp]
      rfl

theorem publishAll_history_lastTen (st : AppState)
    (rs : List (DetectResult × ℚ × ℚ))
    (hcap : st.emotion_history.length ≤ HISTORY_MAXLEN)
    (hdet : ∀ p ∈ rs, p.1.face_detected = true) :
    (publishAll st rs).emotion_history =
      lastTen (st.emotion_history ++ rs.map toHistoryEntry) := by
  rw [publishAll_history rs st hdet, foldl_dequeAppend_eq _ _ hcap]

/-- Any call that returns `ret = True` leaves the cache valid and
returns exactly the cached frame of its post-state. -/
theorem read_ret_frame_eq_cache (interval : ℚ) (st : CameraState)
    (now : ℚ) (dev : Option Frame)
    (h : (read_with_frame_rate_limiting interval st now dev).ret = true) :
    (read_with_frame_rate_limiting interval st now dev).state.last_frame_valid =
      true ∧
    (read_with_frame_rate_limiting interval st now dev).frame =
      (read_with_frame_rate_limiting interval st now dev).state.last_frame := by
  unfold read_with_frame_rate_limiting at *
  rcases dev with _ | f <;>
    by_cases hge : interval ≤ now - st.last_frame_time <;>
      cases hv : st.last_frame_valid <;>
        simp_all
  all_goals rw [if_neg (not_le.mpr hge)]
  all_goals simp_all

/-! ## Claim theorems -/

/-- C3: classify on an image with zero locatable faces returns
detected=false with empty EmotionScores and absent bounding box, and
every result of `detect_emotions_from_frame` satisfies the invariant
that detected=false implies the emotion dict is empty and the bounding
box is `None`. -/
theorem classify_no_face_invariant
    (faces : Except String (List (ℤ × ℤ × ℤ × ℤ)))
    (analyze an : Except String (List (String × ℚ) × String)) :
    detect_emotions_from_frame (.ok []) an =
      some { emotions := [], dominant_emotion := none,
             emotion_color_rgb := (0, 0, 0), emotion_color_bgr := (0, 0, 0),
             face_detected := false, face_bbox := none, error := none } ∧
    (∀ r, detect_emotions_from_frame faces analyze = some r →
      r.face_detected = false → r.emotions = [] ∧ r.face_bbox = none) := by
  constructor
  · rfl
  · intro r hr hd
    rcases faces with e | fs
    · rw [show detect_emotions_from_frame (.error e) analyze =
          some { emotions := [], dominant_emotion := none,
                 emotion_color_rgb := (0, 0, 0), emotion_color_bgr := (0, 0, 0),
                 face_detected := false, face_bbox := none,
                 error := some e } from rfl] at hr
      cases Option.some.inj hr
      exact ⟨rfl, rfl⟩
    · rcases fs with _ | ⟨f, fs⟩
      · cases Option.some.inj hr
        exact ⟨rfl, rfl⟩
      · rcases analyze with e2 | ⟨em, dom⟩
        · cases Option.some.inj hr
          exact ⟨rfl, rfl⟩
        · cases Option.some.inj hr
          simp at hd

/-- C3 witness: the theorem applied at a concrete no-face input and a
concrete error input. -/
theorem classify_no_face_invariant_witness :
    detect_emotions_from_frame (.ok []) (.ok ([("happy", 90)], "happy")) =
      some { emotions := [], dominant_emotion := none,
             emotion_color_rgb := (0, 0, 0), emotion_color_bgr := (0, 0, 0),
             face_detected := false, face_bbox := none, error := none } ∧
    (∀ r, detect_emotions_from_frame (.error "cascade crashed")
        (.ok ([("sad", 60)], "sad")) = some r →
      r.face_detected = false → r.emotions = [] ∧ r.face_bbox = none) :=
  classify_no_face_invariant (.error "cascade crashed")
    (.ok ([("sad", 60)], "sad")) (.ok ([("happy", 90)], "happy"))

/-- C4: any exception raised during face localization or emotion
classification is caught: `detect_emotions_from_frame` returns a
detected=false result carrying the error string, and (being a total
function into `some …`) never propagates the exception. -/
theorem classify_exception_caught (msg msg2 : String)
    (f : ℤ × ℤ × ℤ × ℤ) (fs : List (ℤ × ℤ × ℤ × ℤ))
    (analyze : Except String (List (String × ℚ) × String)) :
    detect_emotions_from_frame (.error msg) analyze =
      some { emotions := [], dominant_emotion := none,
             emotion_color_rgb := (0, 0, 0), emotion_color_bgr := (0, 0, 0),
             face_detected := false, face_bbox := none, error := some msg } ∧
    detect_emotions_from_frame (.ok (f :: fs)) (.error msg2) =
      some { emotions := [], dominant_emotion := none,
             emotion_color_rgb := (0, 0, 0), emotion_color_bgr := (0, 0, 0),
             face_detected := false, face_bbox := none, error := some msg2 } :=
  ⟨rfl, rfl⟩

/-- C10: `detect_emotions_from_frame` is total at its public interface:
for every input it returns `some` dictionary (never `None`, contrary to
its docstring), and the dictionary type carries the keys `emotions`,
`dominant_emotion`, `face_detected` and `face_bbox` on every path, so a
caller may test `face_detected` without a `None` check. -/
theorem detect_total_returns_dict
    (faces : Except String (List (ℤ × ℤ × ℤ × ℤ)))
    (analyze : Except String (List (String × ℚ) × String)) :
    ∃ r : DetectResult, detect_emotions_from_frame faces analyze = some r ∧
      (r.face_detected = true ∨ r.face_detected = false) := by
  rcases faces with e | fs
  · exact ⟨_, rfl, Or.inr rfl⟩
  · rcases fs with _ | ⟨f, fs⟩
    · exact ⟨_, rfl, Or.inr rfl⟩
    · rcases analyze with e2 | ⟨em, dom⟩
      · exact ⟨_, rfl, Or.inr rfl⟩
      · exact ⟨_, rfl, Or.inl rfl⟩

/-- C5: publishing a result with detected=false (or a falsy result) is a
no-op on the shared emotion state: the `emotions`, `scores_out_of_10`
and `timestamp` fields and the history buffer are all unchanged, so
`get_latest_emotions` keeps reporting the last successfully detected
emotion. -/
theorem publish_undetected_noop (st : AppState) (r : DetectResult)
    (tHist tData : ℚ) (h : r.face_detected = false) :
    process_result st (some r) tHist tData = st ∧
    process_result st none tHist tData = st ∧
    get_latest_emotions (process_result st (some r) tHist tData) =
      get_latest_emotions st := by
  have h1 : process_result st (some r) tHist tData = st := by
    simp [process_result, h]
  exact ⟨h1, rfl, by rw [h1]⟩

/-- C5 witness: a concrete undetected result leaves a concrete state
untouched. -/
theorem publish_undetected_noop_witness :
    ({ emotions := [], dominant_emotion := none,
       emotion_color_rgb := (0, 0, 0), emotion_color_bgr := (0, 0, 0),
       face_detected := false, face_bbox := none,
       error := none } : DetectResult).face_detected = false ∧
    (process_result AppState.init
        (some { emotions := [], dominant_emotion := none,
                emotion_color_rgb := (0, 0, 0), emotion_color_bgr := (0, 0, 0),
                face_detected := false, face_bbox := none, error := none })
        3 4 = AppState.init ∧
      process_result AppState.init none 3 4 = AppState.init ∧
      get_latest_emotions
          (process_result AppState.init
            (some { emotions := [], dominant_emotion := none,
                    emotion_color_rgb := (0, 0, 0),
                    emotion_color_bgr := (0, 0, 0),
                    face_detected := false, face_bbox := none,
                    error := none }) 3 4) =
        get_latest_emotions AppState.init) :=
  ⟨rfl, publish_undetected_noop AppState.init _ 3 4 rfl⟩

/-- C7: `start_continuous_emotion_detection` is idempotent on the
Running state: with the flag set it returns `False` and changes nothing
(no second loop thread); with the flag clear it sets the flag, spawns
exactly one loop thread and returns `True`; and immediately after any
start, a second start returns `False` and spawns nothing. -/
theorem start_idempotent_single_thread (c : LoopControl) :
    (c.running = true → start_continuous_emotion_detection c = (false, c)) ∧
    (c.running = false →
      start_continuous_emotion_detection c =
        (true, { running := true,
                 threads_spawned := c.threads_spawned + 1 })) ∧
    start_continuous_emotion_detection
        (start_continuous_emotion_detection c).2 =
      (false, (start_continuous_emotion_detection c).2) := by
  cases hc : c.running <;>
    simp [start_continuous_emotion_detection, hc]

/-- C7 witness: starting twice from the stopped state with no threads:
the first call starts, the second is rejected. -/
theorem start_idempotent_single_thread_witness :
    ((⟨false, 0⟩ : LoopControl).running = true →
      start_continuous_emotion_detection ⟨false, 0⟩ = (false, ⟨false, 0⟩)) ∧
    ((⟨false, 0⟩ : LoopControl).running = false →
      start_continuous_emotion_detection ⟨false, 0⟩ = (true, ⟨true, 1⟩)) ∧
    start_continuous_emotion_detection
        (start_continuous_emotion_detection ⟨false, 0⟩).2 =
      (false, (start_continuous_emotion_detection ⟨false, 0⟩).2) :=
  start_idempotent_single_thread ⟨false, 0⟩

/-- C9: the derived 0–10-scale score of every published confidence value
equals `round(confidence / 10, 1)` — computed at publish time and stored,
with `get_latest_emotions` returning the stored field unchanged — and for
confidence 73.46 the derived score is 7.3. -/
theorem derived_scores_at_publish (st : AppState) (r : DetectResult)
    (tHist tData : ℚ) (h : r.face_detected = true) :
    (get_latest_emotions (process_result st (some r) tHist tData)).scores_out_of_10
      = r.emotions.map (fun p => (p.1, pyRound1 (p.2 / 10))) ∧
    pyRound1 (7346 / 100 / 10) = 73 / 10 := by
  constructor
  · simp [get_latest_emotions, process_result, h, convert_to_out_of_10]
  · norm_num [pyRound1, Int.fract]

/-- C9 witness: a concrete publish of confidence 73.46 yields stored
score 7.3. -/
theorem derived_scores_at_publish_witness :
    ({ emotions := [("happy", 7346 / 100)], dominant_emotion := some "happy",
       emotion_color_rgb := (0, 0, 0), emotion_color_bgr := (0, 0, 0),
       face_detected := true, face_bbox := some (0, 0, 50, 50),
       error := none } : DetectResult).face_detected = true ∧
    ((get_latest_emotions
        (process_result AppState.init
          (some { emotions := [("happy", 7346 / 100)],
                  dominant_emotion := some "happy",
                  emotion_color_rgb := (0, 0, 0),
                  emotion_color_bgr := (0, 0, 0),
                  face_detected := true, face_bbox := some (0, 0, 50, 50),
                  error := none }) 3 4)).scores_out_of_10
        = [("happy", (7346 : ℚ) / 100)].map (fun p => (p.1, pyRound1 (p.2 / 10))) ∧
      pyRound1 (7346 / 100 / 10) = 73 / 10) :=
  ⟨rfl, derived_scores_at_publish AppState.init _ 3 4 rfl⟩

/-- C6: the history buffer never exceeds capacity 10 under the publish
step, and after any sequence of 15 publishes of detected=true results
starting from the empty buffer it holds exactly the last 10 contributed
entries, oldest to newest (entries are values, never mutated after
insertion). -/
theorem history_capacity_and_order (st : AppState)
    (result : Option DetectResult) (tHist tData : ℚ)
    (hcap : st.emotion_history.length ≤ HISTORY_MAXLEN)
    (rs : List (DetectResult × ℚ × ℚ))
    (hlen : rs.length = 15)
    (hdet : ∀ p ∈ rs, p.1.face_detected = true) :
    (process_result st result tHist tData).emotion_history.length ≤
        HISTORY_MAXLEN ∧
    (publishAll AppState.init rs).emotion_history =
      (rs.map toHistoryEntry).drop 5 := by
  constructor
  · rcases result with _ | r
    · exact hcap
    · cases hr : r.face_detected
      · simpa [process_result, hr] using hcap
      · rw [process_result_history_detected st r hr tHist tData]
        exact dequeAppend_length_le_ten _ _
  · rw [publishAll_history_lastTen AppState.init rs (by simp [AppState.init]) hdet]
    show lastTen ([] ++ rs.map toHistoryEntry) = _
    rw [List.nil_append]
    unfold lastTen
    rw [List.length_map, hlen]
    norm_num [HISTORY_MAXLEN]

/-- C6 witness: fifteen concrete detected publishes leave the last ten
entries, in order. -/
theorem history_capacity_and_order_witness :
    (AppState.init.emotion_history.length ≤ HISTORY_MAXLEN ∧
      fifteenPublishes.length = 15 ∧
      (∀ p ∈ fifteenPublishes, p.1.face_detected = true)) ∧
    ((process_result AppState.init none 0 0).emotion_history.length ≤
        HISTORY_MAXLEN ∧
      (publishAll AppState.init fifteenPublishes).emotion_history =
        (fifteenPublishes.map toHistoryEntry).drop 5) :=
  ⟨⟨by simp [AppState.init], by decide, by decide⟩,
    history_capacity_and_order AppState.init none 0 0 (by simp [AppState.init])
      fifteenPublishes (by decide) (by decide)⟩

/-- C8: for a nonempty emotion dict, the dominant category selected by
`max(items, key=lambda x: x[1])` carries the maximum confidence value
and is the first item (in dict enumeration order) attaining that
maximum; in particular for `{happy: 50, sad: 50}` the first key wins the
tie and the formatted string is "I am feeling Happy". -/
theorem dominant_emotion_max_tie_first (x : String × ℚ)
    (xs : List (String × ℚ)) :
    (∀ p ∈ x :: xs, p.2 ≤ (pyMaxBySnd x xs).2) ∧
    (x :: xs).find? (fun p => decide ((pyMaxBySnd x xs).2 ≤ p.2)) =
      some (pyMaxBySnd x xs) ∧
    format_dominant_emotion (x :: xs) =
      "I am feeling " ++ pyCapitalize (pyMaxBySnd x xs).1 ∧
    format_dominant_emotion [("happy", 50), ("sad", 50)] =
      "I am feeling Happy" := by
  refine ⟨pyMaxBySnd_is_max xs x, pyMaxBySnd_find xs x, rfl, ?_⟩
  have hmax : pyMaxBySnd ("happy", (50 : ℚ)) [("sad", 50)] = ("happy", 50) := by
    rw [pyMaxBySnd_cons, if_neg (lt_irrefl _), pyMaxBySnd_nil]
  show "I am feeling " ++ pyCapitalize (pyMaxBySnd ("happy", 50) [("sad", 50)]).1 = _
  rw [hmax]
  decide

/-- C8 witness: the theorem applied at the dict
`{happy: 30, neutral: 30, sad: 70}` — sad carries the maximum, and the
first-maximum `find?` returns it. -/
theorem dominant_emotion_max_tie_first_witness :
    (∀ p ∈ [("happy", (30 : ℚ)), ("neutral", 30), ("sad", 70)],
      p.2 ≤ (pyMaxBySnd ("happy", 30) [("neutral", 30), ("sad", 70)]).2) ∧
    [("happy", (30 : ℚ)), ("neutral", 30), ("sad", 70)].find?
        (fun p => decide
          ((pyMaxBySnd ("happy", 30) [("neutral", 30), ("sad", 70)]).2 ≤ p.2)) =
      some (pyMaxBySnd ("happy", 30) [("neutral", 30), ("sad", 70)]) ∧
    format_dominant_emotion [("happy", 30), ("neutral", 30), ("sad", 70)] =
      "I am feeling " ++
        pyCapitalize (pyMaxBySnd ("happy", 30) [("neutral", 30), ("sad", 70)]).1 ∧
    format_dominant_emotion [("happy", 50), ("sad", 50)] =
      "I am feeling Happy" :=
  dominant_emotion_max_tie_first ("happy", 30) [("neutral", 30), ("sad", 70)]

/-- C1 counterexample: the publish is three separate dict-item
assignments, so a snapshot landing after the first assignment of a
publish of `{happy: 80}` at time 2 observes the new `emotions` together
with the old `timestamp` — a record equal to neither the pre-publish
nor the post-publish record, i.e. a half-updated mix of two publishes. -/
theorem publish_not_atomic_torn_read :
    (observeAfter c1_before [("happy", 80)] 2 1).emotions =
      (observeAfter c1_before [("happy", 80)] 2 3).emotions ∧
    (observeAfter c1_before [("happy", 80)] 2 1).timestamp =
      c1_before.timestamp ∧
    observeAfter c1_before [("happy", 80)] 2 1 ≠ c1_before ∧
    observeAfter c1_before [("happy", 80)] 2 1 ≠
      observeAfter c1_before [("happy", 80)] 2 3 := by
  refine ⟨rfl, rfl, fun h => ?_, fun h => ?_⟩
  · exact absurd
      (congrArg (fun d => d.emotions.any (fun p => p.1 == "happy")) h)
      (by decide)
  · exact absurd
      (congrArg (fun d => d.scores_out_of_10.any (fun p => p.1 == "sad")) h)
      (by decide)

/-- C1 (amended): each of the three field assignments of a publish is
individually atomic — a snapshot taken after any prefix of the publish
shows, in every single field, either the pre-publish value or the value
written by this publish — and a snapshot outside the publish window
(after 0 or all 3 assignments) is a whole record; but, per the
counterexample, a snapshot strictly inside the window can mix fields of
two different publishes. -/
theorem publish_field_writes_bounded (d : EmotionData)
    (e : List (String × ℚ)) (t : ℚ) (k : ℕ) (hk : k ≤ 3) :
    ((observeAfter d e t k).emotions = d.emotions ∨
      (observeAfter d e t k).emotions = e) ∧
    ((observeAfter d e t k).scores_out_of_10 = d.scores_out_of_10 ∨
      (observeAfter d e t k).scores_out_of_10 = convert_to_out_of_10 e) ∧
    ((observeAfter d e t k).timestamp = d.timestamp ∨
      (observeAfter d e t k).timestamp = some t) ∧
    observeAfter d e t 0 = d ∧
    observeAfter d e t 3 =
      { emotions := e, scores_out_of_10 := convert_to_out_of_10 e,
        timestamp := some t } := by
  interval_cases k <;>
    simp [observeAfter, publishWrites, applyWrite]

/-- C1 witness: the amended theorem at the concrete mid-publish
snapshot (k = 2). -/
theorem publish_field_writes_bounded_witness :
    (2 : ℕ) ≤ 3 ∧
    (((observeAfter c1_before [("happy", 80)] 2 2).emotions =
          c1_before.emotions ∨
        (observeAfter c1_before [("happy", 80)] 2 2).emotions =
          [("happy", 80)]) ∧
      ((observeAfter c1_before [("happy", 80)] 2 2).scores_out_of_10 =
          c1_before.scores_out_of_10 ∨
        (observeAfter c1_before [("happy", 80)] 2 2).scores_out_of_10 =
          convert_to_out_of_10 [("happy", 80)]) ∧
      ((observeAfter c1_before [("happy", 80)] 2 2).timestamp =
          c1_before.timestamp ∨
        (observeAfter c1_before [("happy", 80)] 2 2).timestamp = some 2) ∧
      observeAfter c1_before [("happy", 80)] 2 0 = c1_before ∧
      observeAfter c1_before [("happy", 80)] 2 3 =
        { emotions := [("happy", 80)],
          scores_out_of_10 := convert_to_out_of_10 [("happy", 80)],
          timestamp := some 2 }) :=
  ⟨by decide, publish_field_writes_bounded c1_before [("happy", 80)] 2 2
    (by decide)⟩

/-- C2 counterexample: two successful `read()` calls spaced 2 apart with
interval 10 — far closer than the interval — return different frame
contents (5 then 7), because the limiter measures elapsed time from the
last accepted device read (time 0), not from the previous call, and
neither call failed. -/
theorem rate_limit_spacing_counterexample :
    (11 : ℚ) - 9 < 10 ∧
    c2_first_read.ret = true ∧ c2_second_read.ret = true ∧
    c2_first_read.frame = some 5 ∧ c2_second_read.frame = some 7 ∧
    c2_first_read.frame ≠ c2_second_read.frame := by
  norm_num [c2_first_read, c2_second_read, c2_initial_read,
    read_with_frame_rate_limiting, CameraState.init]

/-- C2 (amended): a read issued less than `1 / target_fps` after the
last accepted device read (`last_frame_time`) of a preceding successful
call returns exactly that call's frame from the cache, without touching
the device; and when no cached frame exists yet, a below-interval call
still falls through to a real device read. -/
theorem read_cached_within_interval (interval : ℚ) (st : CameraState)
    (now : ℚ) (dev : Option Frame) :
    (∀ now2 dev2,
      (read_with_frame_rate_limiting interval st now dev).ret = true →
      now2 - (read_with_frame_rate_limiting interval st now
          dev).state.last_frame_time < interval →
      read_with_frame_rate_limiting interval
          (read_with_frame_rate_limiting interval st now dev).state now2 dev2 =
        { ret := true,
          frame := (read_with_frame_rate_limiting interval st now dev).frame,
          state := (read_with_frame_rate_limiting interval st now dev).state,
          touched := false }) ∧
    (st.last_frame_valid = false → now - st.last_frame_time < interval →
      (read_with_frame_rate_limiting interval st now dev).touched = true) := by
  constructor
  · intro now2 dev2 hret hlt
    obtain ⟨hv, hf⟩ := read_ret_frame_eq_cache interval st now dev hret
    set o := read_with_frame_rate_limiting interval st now dev with ho
    unfold read_with_frame_rate_limiting
    rw [if_neg (not_le.mpr hlt), hf, hv]
    simp
  · intro hv hlt
    unfold read_with_frame_rate_limiting
    rw [if_neg (not_le.mpr hlt), hv]
    rcases dev with _ | f <;> simp

/-- C2 witness: the amended theorem at interval 10 with a valid cache
(frame 5) stamped at time 0: a call at time 9 is served from the cache
untouched, and the fall-through fires on an empty cache. -/
theorem read_cached_within_interval_witness :
    (∀ now2 dev2,
      (read_with_frame_rate_limiting 10 ⟨some 5, true, 0⟩ 9 (some 6)).ret =
        true →
      now2 - (read_with_frame_rate_limiting 10 ⟨some 5, true, 0⟩ 9
          (some 6)).state.last_frame_time < 10 →
      read_with_frame_rate_limiting 10
          (read_with_frame_rate_limiting 10 ⟨some 5, true, 0⟩ 9
            (some 6)).state now2 dev2 =
        { ret := true,
          frame := (read_with_frame_rate_limiting 10 ⟨some 5, true, 0⟩ 9
            (some 6)).frame,
          state := (read_with_frame_rate_limiting 10 ⟨some 5, true, 0⟩ 9
            (some 6)).state,
          touched := false }) ∧
    ((⟨some 5, true, 0⟩ : CameraState).last_frame_valid = false →
      (9 : ℚ) - (⟨some 5, true, 0⟩ : CameraState).last_frame_time < 10 →
      (read_with_frame_rate_limiting 10 ⟨some 5, true, 0⟩ 9
        (some 6)).touched = true) :=
  read_cached_within_interval 10 ⟨some 5, true, 0⟩ 9 (some 6)
